import Mathlib

/-!
Verification development for the FEL (Factura Electrónica en Línea) DTE
validation engine.  The definitions below are a shallow embedding of the
Python sources:

  * `config/fel_config.py`        — format validators and the rule catalog,
  * `src/validators/business_validator.py` — the business-rule engine,
  * `src/validators/xml_validator.py`      — the schema manager.

Python `Decimal` values are modelled as scaled integers (`Dec`), Python
`datetime` values as explicit calendar records (`PyDateTime`), and the
per-group exception behaviour of the engine as `Except String` outcomes.
Fields of the document projection hold already-extracted XML values:
`Option α` distinguishes an absent element from a present one, and
`Option (Option α)` additionally distinguishes a present value that fails
to parse (`some none`) from one that parses (`some (some v)`).
-/

namespace FelSpec

/-! ## Character and digit-string utilities

Python renders numbers with `str`; the engine embeds such strings in
findings (`expected_value` / `actual_value`).  `natStr`/`intStr` reproduce
`str` on the integers the engine produces (fuel 30 covers every quantity
the sources can build: amounts are bounded by twelve integer digits). -/

def digitChar : Nat → Char
  | 0 => '0' | 1 => '1' | 2 => '2' | 3 => '3' | 4 => '4'
  | 5 => '5' | 6 => '6' | 7 => '7' | 8 => '8' | _ => '9'

def charDigit (c : Char) : Nat := c.toNat - 48

def isDigitChar (c : Char) : Bool := 48 ≤ c.toNat && c.toNat ≤ 57

def isHexChar (c : Char) : Bool :=
  isDigitChar c || (97 ≤ c.toNat && c.toNat ≤ 102) || (65 ≤ c.toNat && c.toNat ≤ 70)

/-- Hexadecimal value of a character, as accepted by Python `int(_, 16)`
(case-insensitive). -/
def hexCharVal (c : Char) : Nat :=
  if isDigitChar c then c.toNat - 48
  else if 97 ≤ c.toNat && c.toNat ≤ 102 then c.toNat - 87
  else c.toNat - 55

def natDigitsAux : Nat → Nat → List Char
  | 0, _ => []
  | fuel + 1, n =>
    if n = 0 then [] else natDigitsAux fuel (n / 10) ++ [digitChar (n % 10)]

/-- Decimal digit string of a natural number (valid up to 30 digits,
far beyond anything the engine manipulates). -/
def natStr (n : Nat) : String :=
  if n = 0 then "0" else String.mk (natDigitsAux 30 n)

/-- Python `str` on an `int`. -/
def intStr (i : Int) : String :=
  if i < 0 then "-" ++ natStr i.natAbs else natStr i.natAbs

/-- Embeds `group_name.upper().replace(' ', '_')`, used for `SYSTEM_<GROUP>` codes. -/
def pyUpperUnderscore (s : String) : String :=
  String.mk (s.data.map fun c => if c = ' ' then '_' else c.toUpper)

/-! ## Python `Decimal`

`Decimal` values the engine builds are finite fixed-point numbers: a
coefficient (`val`, signed) together with the count of decimal places
(`scale`, so the value is `val / 10 ^ scale`).  `Decimal("1000.00")` is
`⟨100000, 2⟩`.  Multiplication adds scales without rounding, exactly as
Python `Decimal.__mul__`; addition and subtraction align to the larger
scale; comparison is by numeric value. -/

structure Dec where
  val : Int
  scale : Nat
deriving DecidableEq, Repr

def decMul (a b : Dec) : Dec := ⟨a.val * b.val, a.scale + b.scale⟩

def decAdd (a b : Dec) : Dec :=
  let s := max a.scale b.scale
  ⟨a.val * (10 : Int) ^ (s - a.scale) + b.val * (10 : Int) ^ (s - b.scale), s⟩

def decSub (a b : Dec) : Dec :=
  let s := max a.scale b.scale
  ⟨a.val * (10 : Int) ^ (s - a.scale) - b.val * (10 : Int) ^ (s - b.scale), s⟩

def decAbs (a : Dec) : Dec := ⟨|a.val|, a.scale⟩

/-- Embeds `a ≤ b` on the represented rational values. -/
def decLe (a b : Dec) : Bool :=
  decide (a.val * (10 : Int) ^ b.scale ≤ b.val * (10 : Int) ^ a.scale)

/-- Embeds `a < b` on the represented rational values. -/
def decLt (a b : Dec) : Bool :=
  decide (a.val * (10 : Int) ^ b.scale < b.val * (10 : Int) ^ a.scale)

/-- Python `str` on a finite `Decimal` with non-positive exponent (the only
shape the engine produces): digits of the coefficient with a decimal point
inserted `scale` places from the right, zero-padded as needed.
`str(Decimal("1000.00") * Decimal("0.12")) = "120.0000"`. -/
def decStr (d : Dec) : String :=
  if d.scale = 0 then intStr d.val
  else
    let digits := (natStr d.val.natAbs).data
    let padded :=
      if digits.length < d.scale + 1 then
        List.replicate (d.scale + 1 - digits.length) '0' ++ digits
      else digits
    let intPart := padded.take (padded.length - d.scale)
    let fracPart := padded.drop (padded.length - d.scale)
    (if d.val < 0 then "-" else "") ++ String.mk intPart ++ "." ++ String.mk fracPart

/-- Embeds `abs(x - y) > SystemConfig.MONETARY_TOLERANCE` with tolerance `0.01`. -/
def decOutsideTolerance (x y : Dec) : Bool := decLt ⟨1, 2⟩ (decAbs (decSub x y))

/-! ## Python `datetime`

The engine parses `FechaHoraEmision` / `FechaHoraCertificacion` into
`datetime` objects and subtracts their `.date()` parts.  `toRataDie`
converts a calendar day to a day ordinal (proleptic Gregorian, civil-days
algorithm), so `(d2 - d1).days = toRataDie d2 - toRataDie d1`. -/

structure PyDateTime where
  year : Int
  month : Nat
  day : Nat
  hour : Nat
  minute : Nat
  second : Nat
deriving DecidableEq, Repr

/-- Day ordinal of a calendar date (days since 1970-01-01). -/
def toRataDie (y : Int) (m d : Nat) : Int :=
  let y' : Int := if m ≤ 2 then y - 1 else y
  let era : Int := (if 0 ≤ y' then y' else y' - 399) / 400
  let yoe : Int := y' - era * 400
  let mp : Nat := (m + 9) % 12
  let doy : Int := (153 * (mp : Int) + 2) / 5 + (d : Int) - 1
  let doe : Int := yoe * 365 + yoe / 4 - yoe / 100 + doy
  era * 146097 + doe - 719468

/-- Embeds `(b.date() - a.date()).days`. -/
def daysBetween (a b : PyDateTime) : Int :=
  toRataDie b.year b.month b.day - toRataDie a.year a.month a.day

end FelSpec

namespace FelSpec

/-! ## `config/fel_config.py` — `ValidationRules` and the catalog -/

/-- Embeds `NIT_PATTERN = re.compile(r'^\d{1,12}[0-9K]$')` as a predicate on the
character list: 2..13 characters, all but the last decimal digits, the last
a digit or the literal `K`. -/
def nitPattern (l : List Char) : Bool :=
  decide (2 ≤ l.length) && decide (l.length ≤ 13) &&
    l.dropLast.all isDigitChar &&
    (match l.getLast? with
     | some c => isDigitChar c || c = 'K'
     | none => false)

/-- The weighted sum of `ValidationRules.validate_nit`: the multiplier
starts at `len(number_part) + 1` and decreases by one per digit. -/
def nitWeighted (pre : List Char) : Nat :=
  ∑ i ∈ Finset.range pre.length, charDigit (pre.getD i ' ') * (pre.length + 1 - i)

/-- Expected terminal character of a NIT: `'0'` when the remainder is 0,
`'K'` when it is 1, otherwise the digit `11 - remainder`. -/
def expectedNitChar (pre : List Char) : Char :=
  let r := nitWeighted pre % 11
  if r = 0 then '0' else if r = 1 then 'K' else digitChar (11 - r)

/-- Embeds `ValidationRules.validate_nit`. -/
def validate_nit (s : String) : Bool :=
  if ¬ nitPattern s.data then false
  else if s.data.length < 2 then false
  else
    match s.data.getLast? with
    | some check => decide (check = expectedNitChar s.data.dropLast)
    | none => false

/-- Embeds `CUI_PATTERN = re.compile(r'^\d{13}$')`. -/
def cuiPattern (l : List Char) : Bool := decide (l.length = 13) && l.all isDigitChar

/-- Weighted sum over the first 8 digits with multipliers `[2,3,4,5,6,7,8,9]`. -/
def cuiWeighted (l : List Char) : Nat :=
  ∑ i ∈ Finset.range 8, charDigit (l.getD i ' ') * (i + 2)

/-- Embeds `calculated = (total * 10) % 11`. -/
def cuiCalc (l : List Char) : Nat := cuiWeighted l * 10 % 11

/-- Embeds `expected_digit = 0 if calculated == 10 else calculated`. -/
def cuiExpected (l : List Char) : Nat := if cuiCalc l = 10 then 0 else cuiCalc l

/-- Embeds `ValidationRules.validate_cui`.  The source guards twice on
`len(cui) == 13` (the second branch, with 7 multipliers, is unreachable
because the pattern already forces 13 digits); the structure is kept. -/
def validate_cui (s : String) : Bool :=
  if ¬ cuiPattern s.data then false
  else if s.data.length = 13 then
    decide (charDigit (s.data.getD 8 ' ') = cuiExpected s.data)
  else false

/-- Embeds `UUID_PATTERN`: canonical hyphenated UUID v4, version nibble `4`,
variant nibble in `{8,9,a,b}`, case-insensitive. -/
def uuidMatch (s : String) : Bool :=
  decide (s.data.length = 36) &&
    (List.range 36).all fun i =>
      let c := s.data.getD i ' '
      if i = 8 || i = 13 || i = 18 || i = 23 then c = '-'
      else if i = 14 then c = '4'
      else if i = 19 then c = '8' || c = '9' || c = 'a' || c = 'b' || c = 'A' || c = 'B'
      else isHexChar c

/-- Embeds `ValidationRules.MAX_CF_AMOUNT_GTQ = Decimal('2500.00')`. -/
def maxCfAmountGtq : Dec := ⟨250000, 2⟩

/-- Keys of the `INCOTERMS` table. -/
def incotermKeys : List String :=
  ["EXW", "FCA", "FAS", "FOB", "CFR", "CIF", "CPT", "CIP", "DDP", "DAP", "DPU", "ZZZ"]

/-- Keys of `IVA_EXEMPTION_SCENARIOS` with their `allowed_dte` lists. -/
def ivaExemptionScenarioTable : List (Int × List String) :=
  [(1, ["FACT", "FCAM"]), (2, ["FACT", "FCAM"]), (3, ["FACT", "FCAM"]), (4, ["RDON"])]

/-! ## The diagnostic model (`BusinessValidationError`) -/

inductive Severity
  | REJECT
  | INFORM_ERROR
  | INFORM_WARNING
deriving DecidableEq, Repr

inductive Category
  | GENERAL_PART1
  | GENERAL_PART2
  | TAX_SPECIFIC
  | DTE_TYPE_SPECIFIC
  | PHRASE_VALIDATION
  | COMPLEMENT_VALIDATION
  | GENERAL_PART3
  | GENERAL_PART4
deriving DecidableEq, Repr

/-- Embeds `BusinessValidationError` (the finding record).  `sat_validation_level`
is always the default `"CERTIFICADOR"` in the sources and is omitted. -/
structure Finding where
  rule_code : String
  message : String
  severity : Severity
  category : Category
  xpath : Option String := none
  field_name : Option String := none
  expected_value : Option String := none
  actual_value : Option String := none
deriving DecidableEq, Repr

end FelSpec

namespace FelSpec

/-! ## External data services (`RTUService`, `RENAPService`)

These are the in-repo mock implementations used by `BusinessValidator`
(`business_validator.py`, lines 95-142): `validate_nit_exists` delegates to
`ValidationRules.validate_nit`, `get_taxpayer_info` returns fixed data, and
`validate_establishment_active` always returns `True`. -/

structure TaxpayerInfo where
  status : Option String
  ivaAffiliation : Option String
  isrAffiliation : Option String
deriving DecidableEq, Repr

def rtuGetTaxpayerInfo (nit : String) : TaxpayerInfo :=
  if nit = "CF" then ⟨some "ACTIVE", none, none⟩
  else ⟨some "ACTIVE", some "GEN", some "REG"⟩

def rtuEstablishmentActive : Bool := true

structure RenapResult where
  valid : Bool
  status : String
deriving DecidableEq, Repr

def renapValidateCui (cui : String) : RenapResult :=
  if ¬ validate_cui cui then ⟨false, "INVALID_FORMAT"⟩ else ⟨true, "ACTIVE"⟩

/-! ## The document projection

Fields hold the values `_extract_xml_value` produces for the XPath
expressions the rule groups use.  `Option (Option α)` fields distinguish an
absent (or empty, hence falsy) element (`none`) from a present value that
fails to parse (`some none`) and a parsed one (`some (some v)`).  Decimal
fields are carried already parsed: the sources parse them with
`Decimal(...)` inside `try` blocks that catch only `ValueError`/`TypeError`
while `Decimal` raises `InvalidOperation`, so a malformed numeric string
crashes the enclosing group; no claim exercises that corner and it is
outside this model. -/

structure Item where
  cantidad : Option Dec
  precioUnitario : Option Dec
  precio : Option Dec
  descuento : Option Dec
  otrosDescuento : Option Dec
  bienOServicio : Option String
  total : Option Dec
deriving DecidableEq, Repr

structure IvaTax where
  montoGravable : Option Dec
  codigoUnidadGravable : Option (Option Int)
  montoImpuesto : Option Dec
deriving DecidableEq, Repr

structure XmlDoc where
  fechaEmision : Option (Option PyDateTime) := none
  fechaCertificacion : Option (Option PyDateTime) := none
  tipoDTE : Option String := none
  nitEmisor : Option String := none
  codigoEstablecimiento : Option String := none
  idReceptor : Option String := none
  tipoEspecial : Option String := none
  expMarker : Option String := none
  exportacionText : Option String := none
  exportacionElemFound : Bool := false
  incoterm : Option String := none
  espectaculoMarker : Option String := none
  espectaculosText : Option String := none
  moneda : Option String := none
  granTotal : Option Dec := none
  items : List Item := []
  ivaTaxes : List IvaTax := []
  phrases : List (Option (Int × Int)) := []
  referenciasNotaFound : Bool := false
  numeroAutorizacionOrigen : Option String := none
  firmaEmisorFound : Bool := false
  firmaCertificadorFound : Bool := false
  numeroAutorizacion : Option String := none
  serie : Option String := none
  numero : Option (Option Int) := none
deriving DecidableEq, Repr

/-- Python truthiness of an extracted string (`None` and `""` are falsy). -/
def pyTruthy : Option String → Bool
  | none => false
  | some s => s ≠ ""

/-- Embeds `str.isdigit()`: non-empty and all decimal digits. -/
def pyIsDigit (s : String) : Bool := s ≠ "" && s.data.all isDigitChar

/-- Membership test `dte_type in [...]` where `dte_type` may be `None`. -/
def optMem (o : Option String) (l : List String) : Bool :=
  match o with
  | some t => l.contains t
  | none => false

/-- Python `str(x)` where `x` may be `None`. -/
def optStr : Option String → String
  | none => "None"
  | some s => s

def cfLimitDteTypes : List String :=
  ["FACT", "FCAM", "FPEQ", "FCAP", "FCCA", "FACA", "FAPE", "FAAE", "FCPE", "FCAE"]

/-! ## Rule group 1: General Part 1 (`validate_general_part1`) -/

/-- Embeds `_validate_emission_date` (rule 2.2.1).  When both the emission and the
certification timestamps parse, the source reaches
`emission_date.date() > certification_date.replace(day=1) + timedelta(days=32)`
(line 293), which compares a `date` with a `datetime`; Python raises
`TypeError` there, so any finding accumulated so far inside the function —
including the 2.2.1.1 INFORM_ERROR — is lost and the whole rule group
aborts with an exception. -/
def validateEmissionDate (d : XmlDoc) : Except String (List Finding) :=
  match d.fechaEmision with
  | none => .ok [{ rule_code := "2.2.1.0", message := "Missing emission date",
                   severity := .REJECT, category := .GENERAL_PART1,
                   xpath := some ".//FechaHoraEmision" }]
  | some none => .ok [{ rule_code := "2.2.1.0", message := "Invalid emission date format",
                        severity := .REJECT, category := .GENERAL_PART1,
                        xpath := some ".//FechaHoraEmision" }]
  | some (some emis) =>
    match d.fechaCertificacion with
    | some (some cert) =>
      let pending :=
        if ¬ (d.tipoDTE = some "CIVA" ∨ d.tipoDTE = some "CAIS") ∧ daysBetween emis cert > 5
        then [{ rule_code := "2.2.1.1", message := "Emission date exceeds 5-day limit",
                severity := .INFORM_ERROR, category := .GENERAL_PART1,
                field_name := some "FechaHoraEmision" }]
        else ([] : List Finding)
      let _ := pending
      .error "TypeError: cannot compare datetime.datetime to datetime.date"
    | _ => .ok []

/-- The 2.2.1.1 finding list that `_validate_emission_date` builds right
before the `TypeError` destroys it (kept separate so theorems can exhibit
the intended behaviour of rule 2.2.1.1). -/
def rule2211Findings (dteType : Option String) (emis cert : PyDateTime) : List Finding :=
  if ¬ (dteType = some "CIVA" ∨ dteType = some "CAIS") ∧ daysBetween emis cert > 5
  then [{ rule_code := "2.2.1.1", message := "Emission date exceeds 5-day limit",
          severity := .INFORM_ERROR, category := .GENERAL_PART1,
          field_name := some "FechaHoraEmision" }]
  else []

/-- Embeds `_validate_nit_emisor` (rule 2.2.2), with the mock RTU service. -/
def validateNitEmisor (d : XmlDoc) : List Finding :=
  match d.nitEmisor with
  | none => [{ rule_code := "2.2.2.0", message := "Missing NIT Emisor",
               severity := .REJECT, category := .GENERAL_PART1,
               xpath := some ".//NITEmisor" }]
  | some nit =>
    if ¬ validate_nit nit then
      [{ rule_code := "2.2.2.1", message := "NIT does not exist in SAT",
         severity := .REJECT, category := .GENERAL_PART1,
         field_name := some "NITEmisor", actual_value := some nit }]
    else
      let tp := rtuGetTaxpayerInfo nit
      (if tp.status ≠ some "ACTIVE" then
        [{ rule_code := "2.2.2.2", message := "NIT is not active in SAT",
           severity := .REJECT, category := .GENERAL_PART1,
           field_name := some "NITEmisor" }]
       else []) ++
      (if ¬ optMem d.tipoDTE ["CIVA", "FESP", "RECI", "RDON"] ∧ ¬ pyTruthy tp.ivaAffiliation then
        [{ rule_code := "2.2.2.3", message := "NIT not affiliated to IVA and DTE type requires it",
           severity := .REJECT, category := .GENERAL_PART1 }]
       else [])

def emissionParsedDate (d : XmlDoc) : Option PyDateTime :=
  match d.fechaEmision with
  | some (some t) => some t
  | _ => none

/-- Embeds `_validate_establishment_code` (rule 2.2.3); the in-repo
`validate_establishment_active` always answers `True`, so rule 2.2.3.1
cannot fire. -/
def validateEstablishmentCode (d : XmlDoc) : List Finding :=
  match d.codigoEstablecimiento with
  | none => [{ rule_code := "2.2.3.0", message := "Missing establishment code",
               severity := .REJECT, category := .GENERAL_PART1,
               xpath := some ".//CodigoEstablecimiento" }]
  | some _ =>
    if d.nitEmisor.isSome ∧ (emissionParsedDate d).isSome ∧ ¬ rtuEstablishmentActive then
      [{ rule_code := "2.2.3.1", message := "Establishment is not active for emission date",
         severity := .REJECT, category := .GENERAL_PART1 }]
    else []

/-- Embeds `_validate_id_receptor` (rule 2.2.4). -/
def validateIdReceptor (d : XmlDoc) : List Finding :=
  match d.idReceptor with
  | none => [{ rule_code := "2.2.4.0", message := "Missing ID Receptor",
               severity := .REJECT, category := .GENERAL_PART1,
               xpath := some ".//IDReceptor" }]
  | some idr =>
    (if d.tipoEspecial = some "CUI" then
      if ¬ pyIsDigit idr then
        [{ rule_code := "2.2.4.1", message := "CUI Receptor is not numeric",
           severity := .REJECT, category := .GENERAL_PART1,
           field_name := some "IDReceptor" }]
      else if ¬ validate_cui idr then
        [{ rule_code := "2.2.4.3", message := "CUI Receptor has invalid check digit",
           severity := .REJECT, category := .GENERAL_PART1 }]
      else
        let r := renapValidateCui idr
        if ¬ r.valid then
          [{ rule_code := "2.2.4.9", message := "CUI does not exist in RENAP",
             severity := .REJECT, category := .GENERAL_PART1 }]
        else if r.status = "DECEASED" then
          [{ rule_code := "2.2.4.10", message := "CUI corresponds to deceased person",
             severity := .INFORM_ERROR, category := .GENERAL_PART1 }]
        else []
     else []) ++
    (if d.tipoEspecial = some "CUI" ∧ d.expMarker.isSome then
      [{ rule_code := "2.2.4.2", message := "TipoEspecial CUI not allowed for exports",
         severity := .REJECT, category := .GENERAL_PART1 }]
     else []) ++
    (if ¬ pyTruthy d.tipoEspecial ∧ idr ≠ "CF" ∧ ¬ validate_nit idr then
      [{ rule_code := "2.2.4.4", message := "NIT Receptor is invalid",
         severity := .REJECT, category := .GENERAL_PART1 }]
     else []) ++
    (match d.granTotal with
     | some gt =>
       if idr = "CF" ∧ optMem d.tipoDTE cfLimitDteTypes ∧ decLe maxCfAmountGtq gt then
         [{ rule_code := "2.2.4.11", message := "Amount exceeds limit for Consumidor Final",
            severity := .REJECT, category := .GENERAL_PART1 }]
       else []
     | none => [])

/-- Embeds `_validate_export_flag` (rule 2.2.5). -/
def validateExportFlag (d : XmlDoc) : List Finding :=
  if d.expMarker.isSome then
    (if optMem d.tipoDTE ["NABN", "RDON", "RECI", "FESP", "CIVA", "CAIS"] then
      [{ rule_code := "2.2.5.1",
         message := "DTE type " ++ optStr d.tipoDTE ++ " cannot be used for exports",
         severity := .REJECT, category := .GENERAL_PART1 }]
     else []) ++
    (if ¬ optMem d.tipoDTE ["NDEB", "NCRE"] ∧ ¬ d.exportacionText.isSome then
      [{ rule_code := "2.2.5.2", message := "Export must include Exportacion complement",
         severity := .REJECT, category := .GENERAL_PART1 }]
     else [])
  else []

/-- Embeds `_validate_public_show_flag` (rule 2.2.6). -/
def validatePublicShowFlag (d : XmlDoc) : List Finding :=
  if d.espectaculoMarker.isSome then
    (if ¬ optMem d.tipoDTE ["FACT", "FCAM", "FPEQ", "FCAP", "FAPE", "FCPE"] then
      [{ rule_code := "2.2.6.1",
         message := "DTE type " ++ optStr d.tipoDTE ++ " cannot be used for public shows",
         severity := .REJECT, category := .GENERAL_PART1 }]
     else []) ++
    (if d.expMarker.isSome then
      [{ rule_code := "2.2.6.2", message := "Export cannot include public show flag",
         severity := .REJECT, category := .GENERAL_PART1 }]
     else []) ++
    (if ¬ d.espectaculosText.isSome then
      [{ rule_code := "2.2.6.3", message := "Public show must include EspectaculosPublicos complement",
         severity := .REJECT, category := .GENERAL_PART1 }]
     else [])
  else []

/-- Embeds `_validate_currency` (rule 2.2.7); 2.2.7.1 is a `pass` in the source. -/
def validateCurrency (d : XmlDoc) : List Finding :=
  if d.idReceptor = some "CF" ∧ d.moneda ≠ some "GTQ" then
    match d.granTotal with
    | some gt =>
      if decLe maxCfAmountGtq gt then
        [{ rule_code := "2.2.7.2",
           message := "Amount in foreign currency exceeds CF limit when converted to GTQ",
           severity := .REJECT, category := .GENERAL_PART1 }]
      else []
    | none => []
  else []

/-- Embeds `validate_general_part1`: the seven 2.2.x sub-validators in source
order.  Only `_validate_emission_date` can raise in this model. -/
def validate_general_part1 (d : XmlDoc) : Except String (List Finding) :=
  match validateEmissionDate d with
  | .error e => .error e
  | .ok l =>
    .ok (l ++ validateNitEmisor d ++ validateEstablishmentCode d ++ validateIdReceptor d ++
         validateExportFlag d ++ validatePublicShowFlag d ++ validateCurrency d)

end FelSpec

namespace FelSpec

/-! ## Rule group 2: Items (`validate_items`) -/

/-- Embeds `_validate_single_item` (rules 2.3.5-2.3.8). -/
def validateSingleItem (dteType : Option String) (publicShow : Bool)
    (lineNumber : Nat) (it : Item) : List Finding :=
  let quantity := it.cantidad.getD ⟨0, 0⟩
  let unitPrice := it.precioUnitario.getD ⟨0, 0⟩
  let price := it.precio.getD ⟨0, 0⟩
  let discount := it.descuento.getD ⟨0, 0⟩
  let otherDiscount := it.otrosDescuento.getD ⟨0, 0⟩
  let expectedPrice := decMul quantity unitPrice
  (if decOutsideTolerance price expectedPrice then
    [{ rule_code := "2.3.5.1",
       message := "Price calculated incorrectly in item " ++ natStr lineNumber,
       severity := .REJECT, category := .GENERAL_PART2,
       expected_value := some (decStr expectedPrice), actual_value := some (decStr price) }]
   else []) ++
  (if decLt price discount then
    [{ rule_code := "2.3.6.1",
       message := "Discount cannot be greater than price in item " ++ natStr lineNumber,
       severity := .REJECT, category := .GENERAL_PART2 }]
   else []) ++
  (if decLt (decSub price discount) otherDiscount then
    [{ rule_code := "2.3.7.1",
       message := "Other discount cannot be greater than price minus discount in item " ++ natStr lineNumber,
       severity := .REJECT, category := .GENERAL_PART2 }]
   else []) ++
  (if optMem dteType ["FACA", "FCCA", "FAAE", "FCAE"] ∧ it.bienOServicio ≠ some "B" then
    [{ rule_code := "2.3.8.1",
       message := "Agricultural taxpayers can only invoice goods (B) in item " ++ natStr lineNumber,
       severity := .REJECT, category := .GENERAL_PART2 }]
   else []) ++
  (if publicShow ∧ it.bienOServicio ≠ some "S" then
    [{ rule_code := "2.3.8.2",
       message := "Public shows can only invoice services (S) in item " ++ natStr lineNumber,
       severity := .REJECT, category := .GENERAL_PART2 }]
   else [])

/-- Embeds `validate_items` (rule 2.3). -/
def validate_items (d : XmlDoc) : List Finding :=
  let publicShow := d.espectaculoMarker.isSome
  (if publicShow ∧ d.items.length > 1 then
    [{ rule_code := "2.3.1.1", message := "Public show documents cannot have more than one item",
       severity := .REJECT, category := .GENERAL_PART2 }]
   else []) ++
  (if d.tipoDTE = some "CIVA" ∧ d.items.length > 2 then
    [{ rule_code := "2.3.1.2", message := "CIVA documents cannot have more than two items",
       severity := .REJECT, category := .GENERAL_PART2 }]
   else []) ++
  (d.items.enum.map fun p => validateSingleItem d.tipoDTE publicShow (p.1 + 1) p.2).flatten

/-! ## Rule group 3: Taxes (`validate_taxes` / `_validate_iva_tax`) -/

/-- One iteration of the `_validate_iva_tax` loop (rules 2.7.x).  A missing
`MontoGravable` yields 2.7.1.1 and skips the entry; an unparseable
`CodigoUnidadGravable` raises `ValueError` inside the guarded `try`,
yielding 2.7.0 and skipping the entry; an absent unit code defaults to 0.
The expected tax for unit code 1 is the raw product
`monto_gravable * Decimal("0.12")` — the source applies no rounding. -/
def ivaEntryFindings (e : IvaTax) : List Finding :=
  match e.montoGravable with
  | none => [{ rule_code := "2.7.1.1", message := "MontoGravable must be present for IVA",
               severity := .REJECT, category := .TAX_SPECIFIC }]
  | some mg =>
    match e.codigoUnidadGravable with
    | some none => [{ rule_code := "2.7.0", message := "Invalid IVA numeric values",
                      severity := .REJECT, category := .TAX_SPECIFIC }]
    | cu =>
      let k : Int := match cu with | some (some k) => k | _ => 0
      let expectedTax := if k = 1 then decMul mg ⟨12, 2⟩ else ⟨0, 0⟩
      let mi := e.montoImpuesto.getD ⟨0, 0⟩
      (if k ≠ 1 ∧ k ≠ 2 then
        [{ rule_code := "2.7.2.1", message := "Invalid IVA unit code",
           severity := .REJECT, category := .TAX_SPECIFIC }]
       else []) ++
      (if decOutsideTolerance mi expectedTax then
        [{ rule_code := "2.7.4.1", message := "IVA amount calculated incorrectly",
           severity := .REJECT, category := .TAX_SPECIFIC,
           expected_value := some (decStr expectedTax), actual_value := some (decStr mi) }]
       else [])

/-- Embeds `_validate_iva_tax`; the `dte_type` argument is unused in the source. -/
def validate_iva_tax (_dteType : Option String) (taxes : List IvaTax) : List Finding :=
  (taxes.map ivaEntryFindings).flatten

/-- Embeds `validate_taxes`: only the IVA validator is active in the source. -/
def validate_taxes (d : XmlDoc) : List Finding :=
  validate_iva_tax d.tipoDTE d.ivaTaxes

/-! ## Rule group 4: Phrases (`validate_phrases`) -/

/-- Python dict assignment `dict[k] = v` on an insertion-ordered
association list: an existing key keeps its position, a new key is
appended. -/
def dictInsert : List (Int × Int) → Int → Int → List (Int × Int)
  | [], k, v => [(k, v)]
  | (k', v') :: rest, k, v =>
    if k' = k then (k, v) :: rest else (k', v') :: dictInsert rest k v

def dictLookup : List (Int × Int) → Int → Option Int
  | [], _ => none
  | (k', v') :: rest, k => if k' = k then some v' else dictLookup rest k

/-- Embeds `_validate_phrase_scenario` (rules 2.6.1.x for one dict entry). -/
def phraseScenarioFindings (tipoFrase scenarioCode : Int) (dteType : Option String)
    (tp : TaxpayerInfo) : List Finding :=
  (if tipoFrase = 4 then
    match ivaExemptionScenarioTable.find? (fun e => e.1 = scenarioCode) with
    | none =>
      [{ rule_code := "2.6.1.3",
         message := "Invalid scenario code " ++ intStr scenarioCode ++ " for phrase type 4",
         severity := .INFORM_ERROR, category := .PHRASE_VALIDATION }]
    | some e =>
      if ¬ e.2.isEmpty ∧ ¬ optMem dteType e.2 then
        [{ rule_code := "2.6.1." ++ intStr scenarioCode,
           message := "Scenario " ++ intStr scenarioCode ++ " not allowed for DTE type " ++ optStr dteType,
           severity := .INFORM_ERROR, category := .PHRASE_VALIDATION }]
      else []
   else []) ++
  (if tipoFrase = 1 ∧ scenarioCode = 1 ∧ tp.isrAffiliation ≠ some "REG" then
    [{ rule_code := "2.6.1.1", message := "ISR phrase scenario 1 requires regular ISR affiliation",
       severity := .INFORM_ERROR, category := .PHRASE_VALIDATION }]
   else [])

/-- Embeds `validate_phrases` (rule 2.6).  `phrases` entries are `some (t, c)`
when both `TipoFrase` and `CodigoEscenario` are present and parse as
integers, `none` otherwise (the loop skips those). -/
def validate_phrases (d : XmlDoc) : List Finding :=
  let tp : TaxpayerInfo :=
    match d.nitEmisor with
    | some nit => rtuGetTaxpayerInfo nit
    | none => ⟨none, none, none⟩
  let present := d.phrases.foldl (fun acc p =>
    match p with
    | some (t, c) => dictInsert acc t c
    | none => acc) []
  let isExport := d.expMarker.isSome
  (if isExport ∧ optMem d.tipoDTE ["FACT", "FCAM", "NDEB", "NCRE"] then
    match dictLookup present 4 with
    | none =>
      [{ rule_code := "2.6.1.6", message := "Export documents must include IVA exempt phrase (type 4)",
         severity := .INFORM_ERROR, category := .PHRASE_VALIDATION }]
    | some c =>
      if c ≠ 1 then
        [{ rule_code := "2.6.1.7", message := "Export IVA exempt phrase must use scenario 1",
           severity := .INFORM_ERROR, category := .PHRASE_VALIDATION }]
      else []
   else []) ++
  (if optMem d.tipoDTE ["FACT", "FCAM", "NCRE", "NDEB"] ∧ tp.ivaAffiliation = some "AGENT" ∧
      dictLookup present 2 = none then
    [{ rule_code := "2.6.1.5", message := "IVA retention agent must include phrase type 2",
       severity := .INFORM_ERROR, category := .PHRASE_VALIDATION }]
   else []) ++
  (present.map fun e => phraseScenarioFindings e.1 e.2 d.tipoDTE tp).flatten

/-! ## Rule group 5: Complements (`validate_complements`) -/

/-- Embeds `_validate_export_complement` (rule 3.2.1.2). -/
def validateExportComplement (d : XmlDoc) : List Finding :=
  if ¬ d.exportacionElemFound then []
  else if pyTruthy d.incoterm ∧ ¬ optMem d.incoterm incotermKeys then
    [{ rule_code := "3.2.1.2", message := "Invalid INCOTERM: " ++ optStr d.incoterm,
       severity := .REJECT, category := .COMPLEMENT_VALIDATION }]
  else []

/-- Embeds `_validate_reference_complement` (rules 3.5.x). -/
def validateReferenceComplement (d : XmlDoc) : List Finding :=
  if ¬ optMem d.tipoDTE ["NCRE", "NDEB"] then []
  else if ¬ d.referenciasNotaFound then
    [{ rule_code := "3.5.0", message := "Credit/Debit notes must include ReferenciasNota complement",
       severity := .REJECT, category := .COMPLEMENT_VALIDATION }]
  else if ¬ pyTruthy d.numeroAutorizacionOrigen then
    [{ rule_code := "3.5.1.0", message := "Missing authorization number of origin document",
       severity := .REJECT, category := .COMPLEMENT_VALIDATION }]
  else if ¬ uuidMatch (optStr d.numeroAutorizacionOrigen) then
    [{ rule_code := "3.5.1.1", message := "Invalid format for origin document authorization number",
       severity := .REJECT, category := .COMPLEMENT_VALIDATION }]
  else []

/-- Embeds `validate_complements` (rules 3.x). -/
def validate_complements (d : XmlDoc) : List Finding :=
  (if d.expMarker.isSome ∧ ¬ pyTruthy d.exportacionText ∧ ¬ optMem d.tipoDTE ["NDEB", "NCRE"] then
    [{ rule_code := "3.2.1.1", message := "Export documents must include Exportacion complement",
       severity := .REJECT, category := .COMPLEMENT_VALIDATION }]
   else []) ++
  (if d.espectaculoMarker.isSome ∧ ¬ pyTruthy d.espectaculosText then
    [{ rule_code := "3.7.1.1", message := "Public show documents must include EspectaculosPublicos complement",
       severity := .REJECT, category := .COMPLEMENT_VALIDATION }]
   else []) ++
  validateExportComplement d ++ validateReferenceComplement d

/-! ## Rule group 6: Totals (`validate_totals`) -/

/-- Embeds `validate_totals` (rule 2.19).  `sum(item_totals)` starts from the
integer 0, so the empty sum is `Decimal`-exact `⟨0, 0⟩`; items whose
`Total` is absent are skipped. -/
def validate_totals (d : XmlDoc) : List Finding :=
  match d.granTotal with
  | none => []
  | some gt =>
    let calculated := (d.items.filterMap (fun it => it.total)).foldl decAdd ⟨0, 0⟩
    (if d.idReceptor = some "CF" ∧ optMem d.tipoDTE cfLimitDteTypes ∧ decLe maxCfAmountGtq gt then
      [{ rule_code := "2.19.2.4", message := "Gran Total exceeds limit for Consumidor Final",
         severity := .REJECT, category := .GENERAL_PART3 }]
     else []) ++
    (if decOutsideTolerance gt calculated then
      [{ rule_code := "2.19.2.1", message := "Gran Total calculated incorrectly",
         severity := .REJECT, category := .GENERAL_PART3,
         expected_value := some (decStr calculated), actual_value := some (decStr gt) }]
     else [])

/-! ## Rule group 7: Signatures (`validate_signatures`) -/

def validate_signatures (d : XmlDoc) : List Finding :=
  (if ¬ d.firmaEmisorFound then
    [{ rule_code := "3.12.1.1", message := "Missing emisor electronic signature",
       severity := .REJECT, category := .GENERAL_PART4 }]
   else []) ++
  (if ¬ d.firmaCertificadorFound then
    [{ rule_code := "3.12.4.1", message := "Missing certificador electronic signature",
       severity := .REJECT, category := .GENERAL_PART4 }]
   else [])

/-! ## Rule group 8: UUID / Serie / Numero (`validate_uuid_format`) -/

/-- Embeds `numero_autorizacion.replace('-', '')[:8].upper()`. -/
def serieFromUuid (ua : String) : String :=
  String.mk (((ua.data.filter fun c => c ≠ '-').take 8).map Char.toUpper)

/-- Embeds `int(numero_autorizacion.replace('-', '')[8:16], 16) % 999999999`. -/
def numeroFromUuid (ua : String) : Nat :=
  (((ua.data.filter fun c => c ≠ '-').drop 8).take 8).foldl
    (fun a c => a * 16 + hexCharVal c) 0 % 999999999

/-- Embeds `validate_uuid_format` (rules 3.12.5-3.12.7).  The `numero` field is
`some none` when `Numero` is present but `int()` rejects it. -/
def validate_uuid_format (d : XmlDoc) : List Finding :=
  match d.numeroAutorizacion with
  | none => []
  | some ua =>
    if ua = "" then []
    else if ¬ uuidMatch ua then
      [{ rule_code := "3.12.5.1", message := "Invalid UUID format for authorization number",
         severity := .REJECT, category := .GENERAL_PART4 }]
    else
      let expectedSerie := serieFromUuid ua
      (if d.serie ≠ some expectedSerie then
        [{ rule_code := "3.12.6.1", message := "Serie does not correspond to authorization number",
           severity := .REJECT, category := .GENERAL_PART4,
           expected_value := some expectedSerie, actual_value := d.serie }]
       else []) ++
      (match d.numero with
       | none => []
       | some none =>
         [{ rule_code := "3.12.7.0", message := "Invalid numero format",
            severity := .REJECT, category := .GENERAL_PART4 }]
       | some (some n) =>
         let expectedNumero : Int := numeroFromUuid ua
         if n ≠ expectedNumero then
           [{ rule_code := "3.12.7.1", message := "Numero is incorrect",
              severity := .REJECT, category := .GENERAL_PART4,
              expected_value := some (intStr expectedNumero), actual_value := some (intStr n) }]
         else [])

end FelSpec

namespace FelSpec

/-! ## The orchestrator (`validate_dte`, lines 987-1069)

`validate_dte` parses the XML, optionally detects the document type, then
runs the eight rule groups in a fixed order.  Each group runs inside a
`try`: its findings are routed by severity (REJECT → `errors`, the two
INFORM severities → `warnings`) and its name appended to `rules_applied`;
an exception from the group is converted into a synthetic
`SYSTEM_<GROUP>` REJECT finding appended to `errors` (the group name is
then not recorded in `rules_applied`) and the loop continues with the
remaining groups. -/

/-- The synthetic finding built at lines 1031-1035 when a rule group
raises `e`. -/
def systemGroupError (groupName msg : String) : Finding :=
  { rule_code := "SYSTEM_" ++ pyUpperUnderscore groupName,
    message := "System error in " ++ groupName ++ " validation: " ++ msg,
    severity := .REJECT, category := .GENERAL_PART1 }

/-- Whether a finding is routed to `errors` (line 1023). -/
def isRejectFinding (f : Finding) : Bool := f.severity = Severity.REJECT

/-- One group's contribution to `(errors, warnings, rules_applied)`. -/
def groupContribution (groupName : String) (outcome : Except String (List Finding)) :
    List Finding × List Finding × List String :=
  match outcome with
  | .ok findings =>
    (findings.filter isRejectFinding, findings.filter (fun f => ! isRejectFinding f), [groupName])
  | .error msg => ([systemGroupError groupName msg], [], [])

/-- The `for group_name, validation_func in validation_groups` loop: each
group appends to the three accumulators in order. -/
def runGroups : List (String × Except String (List Finding)) →
    List Finding × List Finding × List String
  | [] => ([], [], [])
  | g :: rest =>
    let c := groupContribution g.1 g.2
    let r := runGroups rest
    (c.1 ++ r.1, c.2.1 ++ r.2.1, c.2.2 ++ r.2.2)

/-- The fixed pipeline of eight rule groups (lines 1008-1017) evaluated on
a parsed document.  Groups 2-8 cannot raise in this model (see the
projection notes), so they are wrapped in `.ok`. -/
def groupOutcomes (d : XmlDoc) : List (String × Except String (List Finding)) :=
  [("General Part 1", validate_general_part1 d),
   ("Items", .ok (validate_items d)),
   ("Taxes", .ok (validate_taxes d)),
   ("Phrases", .ok (validate_phrases d)),
   ("Complements", .ok (validate_complements d)),
   ("Totals", .ok (validate_totals d)),
   ("Signatures", .ok (validate_signatures d)),
   ("UUID Format", .ok (validate_uuid_format d))]

/-- Embeds `BusinessValidationResult` (the `validation_time` timestamp is wall
clock ambience and is omitted). -/
structure BusinessValidationResult where
  is_valid : Bool
  errors : List Finding
  warnings : List Finding
  rules_applied : List String
  dte_type : Option String
deriving DecidableEq, Repr

/-- Outcome of `etree.fromstring` plus type detection: a parsed document
projection, an `XMLSyntaxError`, or any other exception raised before the
group loop. -/
inductive DteInput
  | doc (d : XmlDoc)
  | malformed (msg : String)
  | crash (msg : String)

/-- Embeds `BusinessValidator.validate_dte`.  `hint` is the optional `dte_type`
argument; when it is falsy the type is extracted from the document. -/
def validate_dte (input : DteInput) (hint : Option String) : BusinessValidationResult :=
  match input with
  | .malformed msg =>
    let errs := [({ rule_code := "XML_PARSE_ERROR", message := "XML parsing error: " ++ msg,
                    severity := .REJECT, category := .GENERAL_PART1 } : Finding)]
    { is_valid := errs.isEmpty, errors := errs, warnings := [], rules_applied := [],
      dte_type := hint }
  | .crash msg =>
    let errs := [({ rule_code := "SYSTEM_ERROR", message := "System error: " ++ msg,
                    severity := .REJECT, category := .GENERAL_PART1 } : Finding)]
    { is_valid := errs.isEmpty, errors := errs, warnings := [], rules_applied := [],
      dte_type := hint }
  | .doc d =>
    let dteType := if pyTruthy hint then hint else d.tipoDTE
    let acc := runGroups (groupOutcomes d)
    { is_valid := acc.1.isEmpty, errors := acc.1, warnings := acc.2.1,
      rules_applied := acc.2.2, dte_type := dteType }

/-- Embeds `BusinessValidator.validate_anulation` (lines 1071-1075): it simply
delegates to `validate_dte` with the type hint `"ANULATION"`. -/
def validate_anulation (input : DteInput) : BusinessValidationResult :=
  validate_dte input (some "ANULATION")

/-! ## `xml_validator.py` — `SchemaManager.load_schema` and the schema
step of `XMLValidator.validate_xml`

The filesystem, clock and network are abstracted into boolean observations
of one call: whether the schema object is already memoized in
`self.schemas`, whether the cached file exists on disk, whether its
sidecar record is still fresh (`_is_cache_valid`), whether the HTTPS
download succeeds, and whether `XMLSchema(cache_path)` parses. -/

structure SchemaCacheState where
  memoized : Bool
  cacheFileExists : Bool
  cacheInfoFresh : Bool
  downloadSucceeds : Bool
  parseSucceeds : Bool
deriving DecidableEq, Repr

inductive LoadedSchema
  | fromMemo
  | fromDisk
deriving DecidableEq, Repr

/-- Embeds `SchemaManager.load_schema` (lines 159-188).  On a stale or missing
cache it downloads; a failed download returns `None` immediately — the
stale cached file on disk is never used as a fallback. -/
def load_schema (st : SchemaCacheState) (forceDownload : Bool) : Option LoadedSchema :=
  if st.memoized ∧ ¬ forceDownload then some .fromMemo
  else
    if (forceDownload ∨ ¬ st.cacheFileExists ∨ ¬ st.cacheInfoFresh) ∧ ¬ st.downloadSucceeds then
      none
    else if st.parseSucceeds then some .fromDisk
    else none

inductive XLevel
  | ERROR
  | WARNING
  | INFO
deriving DecidableEq, Repr

structure XFinding where
  code : String
  message : String
  level : XLevel
deriving DecidableEq, Repr

/-- Step 5 of `XMLValidator.validate_xml` (lines 442-464): the
`(errors, warnings)` contribution of schema resolution and validation.
`violation` abstracts the outcome of `_validate_against_schema` when a
schema is available (`some msg` : one ERR_001 finding, `none` : clean). -/
def schemaStepFindings (st : SchemaCacheState) (schemaName : Option String)
    (violation : Option String) : List XFinding × List XFinding :=
  match schemaName with
  | some name =>
    match load_schema st false with
    | some _ =>
      (match violation with
       | some msg => [⟨"ERR_001", "Schema validation failed: " ++ msg, .ERROR⟩]
       | none => [], [])
    | none =>
      ([⟨"SCHEMA_LOAD_ERROR", "Could not load schema: " ++ name, .ERROR⟩], [])
  | none =>
    ([], [⟨"NO_SCHEMA_FOUND", "No appropriate schema found for validation", .WARNING⟩])

end FelSpec

namespace FelSpec

/-! ## Helper lemmas about the orchestrator -/

theorem runGroups_append (xs ys : List (String × Except String (List Finding))) :
    runGroups (xs ++ ys) =
      ((runGroups xs).1 ++ (runGroups ys).1,
       (runGroups xs).2.1 ++ (runGroups ys).2.1,
       (runGroups xs).2.2 ++ (runGroups ys).2.2) := by
  induction xs with
  | nil => simp [runGroups]
  | cons g rest ih => simp [runGroups, ih]

theorem runGroups_errors_reject (gs : List (String × Except String (List Finding))) :
    ∀ f ∈ (runGroups gs).1, f.severity = Severity.REJECT := by
  induction gs with
  | nil => simp [runGroups]
  | cons g rest ih =>
    intro f hf
    simp only [runGroups, List.mem_append] at hf
    rcases hf with hf | hf
    · match hout : g.2 with
      | .ok l =>
        rw [hout] at hf
        simp only [groupContribution, List.mem_filter] at hf
        have := hf.2
        simpa [isRejectFinding] using this
      | .error msg =>
        rw [hout] at hf
        simp only [groupContribution, List.mem_singleton] at hf
        subst hf
        rfl
    · exact ih f hf

theorem runGroups_warnings_inform (gs : List (String × Except String (List Finding))) :
    ∀ f ∈ (runGroups gs).2.1,
      f.severity = Severity.INFORM_ERROR ∨ f.severity = Severity.INFORM_WARNING := by
  induction gs with
  | nil => simp [runGroups]
  | cons g rest ih =>
    intro f hf
    simp only [runGroups, List.mem_append] at hf
    rcases hf with hf | hf
    · match hout : g.2 with
      | .ok l =>
        rw [hout] at hf
        simp only [groupContribution, List.mem_filter] at hf
        have h2 := hf.2
        cases hs : f.severity with
        | REJECT => rw [Bool.not_eq_true', isRejectFinding, hs] at h2; simp at h2
        | INFORM_ERROR => exact Or.inl rfl
        | INFORM_WARNING => exact Or.inr rfl
      | .error msg =>
        rw [hout] at hf
        simp [groupContribution] at hf
    · exact ih f hf

end FelSpec

namespace FelSpec

/-! ## Claim C1 — the verdict shape of `validate_dte` -/

/-- C1: for every input and optional type hint, the verdict of
`validate_dte` satisfies `is_valid = true ↔ errors = []`; every finding in
`errors` has severity REJECT, every finding in `warnings` has severity
INFORM_ERROR or INFORM_WARNING, and `is_valid` is false exactly when some
REJECT finding was produced. -/
theorem c1_validate_dte_verdict (input : DteInput) (hint : Option String) :
    ((validate_dte input hint).is_valid = true ↔ (validate_dte input hint).errors = []) ∧
    (∀ f ∈ (validate_dte input hint).errors, f.severity = Severity.REJECT) ∧
    (∀ f ∈ (validate_dte input hint).warnings,
        f.severity = Severity.INFORM_ERROR ∨ f.severity = Severity.INFORM_WARNING) ∧
    ((validate_dte input hint).is_valid = false ↔
        ∃ f ∈ (validate_dte input hint).errors, f.severity = Severity.REJECT) := by
  have key : ∀ (errs warns : List Finding) (ra : List String) (dt : Option String),
      (∀ f ∈ errs, f.severity = Severity.REJECT) →
      (∀ f ∈ warns, f.severity = Severity.INFORM_ERROR ∨ f.severity = Severity.INFORM_WARNING) →
      let r : BusinessValidationResult :=
        { is_valid := errs.isEmpty, errors := errs, warnings := warns,
          rules_applied := ra, dte_type := dt }
      (r.is_valid = true ↔ r.errors = []) ∧
      (∀ f ∈ r.errors, f.severity = Severity.REJECT) ∧
      (∀ f ∈ r.warnings,
          f.severity = Severity.INFORM_ERROR ∨ f.severity = Severity.INFORM_WARNING) ∧
      (r.is_valid = false ↔ ∃ f ∈ r.errors, f.severity = Severity.REJECT) := by
    intro errs warns ra dt herr hwarn
    refine ⟨by simp [List.isEmpty_iff], herr, hwarn, ?_⟩
    cases errs with
    | nil => simp [List.isEmpty]
    | cons f rest =>
      constructor
      · intro _
        exact ⟨f, List.mem_cons_self f rest, herr f (List.mem_cons_self f rest)⟩
      · intro _
        rfl
  cases input with
  | malformed msg =>
    exact key _ _ _ _ (by intro f hf; simp at hf; subst hf; rfl) (by simp)
  | crash msg =>
    exact key _ _ _ _ (by intro f hf; simp at hf; subst hf; rfl) (by simp)
  | doc d =>
    exact key _ _ _ _ (runGroups_errors_reject (groupOutcomes d))
      (runGroups_warnings_inform (groupOutcomes d))

/-! ## Claim C2 — group-level exceptions become `SYSTEM_<GROUP>` findings -/

/-- C2: whenever one of the rule groups of the pipeline raises an
exception, `validate_dte` converts it into a synthetic `SYSTEM_<GROUP>`
finding of severity REJECT placed among the errors, the remaining groups
still contribute their findings, and the aggregated verdict is returned
to the caller (the function is total). -/
theorem c2_group_exception_converted (d : XmlDoc) (hint : Option String)
    (pre post : List (String × Except String (List Finding))) (gname msg : String)
    (hsplit : groupOutcomes d = pre ++ (gname, Except.error msg) :: post) :
    (validate_dte (.doc d) hint).errors =
      (runGroups pre).1 ++ systemGroupError gname msg :: (runGroups post).1 ∧
    (validate_dte (.doc d) hint).warnings = (runGroups pre).2.1 ++ (runGroups post).2.1 ∧
    (validate_dte (.doc d) hint).rules_applied = (runGroups pre).2.2 ++ (runGroups post).2.2 ∧
    (systemGroupError gname msg).severity = Severity.REJECT ∧
    (systemGroupError gname msg).rule_code = "SYSTEM_" ++ pyUpperUnderscore gname := by
  have hrun : runGroups (groupOutcomes d) =
      ((runGroups pre).1 ++ systemGroupError gname msg :: (runGroups post).1,
       (runGroups pre).2.1 ++ (runGroups post).2.1,
       (runGroups pre).2.2 ++ (runGroups post).2.2) := by
    rw [hsplit, runGroups_append]
    simp [runGroups, groupContribution]
  refine ⟨?_, ?_, ?_, rfl, rfl⟩ <;> simp [validate_dte, hrun]

/-- The boundary document of §8 scenario 3: a FACT document carrying both
an emission timestamp (2024-01-01T09:00:00) and a certification timestamp
(2024-01-07T09:00:00). -/
def lateEmissionDoc : XmlDoc :=
  { tipoDTE := some "FACT",
    fechaEmision := some (some ⟨2024, 1, 1, 9, 0, 0⟩),
    fechaCertificacion := some (some ⟨2024, 1, 7, 9, 0, 0⟩) }

/-- Witness for C2 at a concrete input: on `lateEmissionDoc` the
General Part 1 group raises (see `validateEmissionDate`), and the claim
theorem applies with the empty prefix. -/
theorem c2_group_exception_converted_witness :
    (validate_dte (.doc lateEmissionDoc) none).errors =
      (runGroups []).1 ++
        systemGroupError "General Part 1"
          "TypeError: cannot compare datetime.datetime to datetime.date" ::
        (runGroups (List.drop 1 (groupOutcomes lateEmissionDoc))).1 ∧
    (validate_dte (.doc lateEmissionDoc) none).warnings =
      (runGroups []).2.1 ++ (runGroups (List.drop 1 (groupOutcomes lateEmissionDoc))).2.1 ∧
    (validate_dte (.doc lateEmissionDoc) none).rules_applied =
      (runGroups []).2.2 ++ (runGroups (List.drop 1 (groupOutcomes lateEmissionDoc))).2.2 ∧
    (systemGroupError "General Part 1"
      "TypeError: cannot compare datetime.datetime to datetime.date").severity =
        Severity.REJECT ∧
    (systemGroupError "General Part 1"
      "TypeError: cannot compare datetime.datetime to datetime.date").rule_code =
        "SYSTEM_" ++ pyUpperUnderscore "General Part 1" :=
  c2_group_exception_converted lateEmissionDoc none []
    (List.drop 1 (groupOutcomes lateEmissionDoc)) "General Part 1"
    "TypeError: cannot compare datetime.datetime to datetime.date" rfl

/-! ## Claim C10 — `validate_anulation` refines `validate_dte` -/

/-- C10: for every input, `validate_anulation` returns exactly the result
of `validate_dte` with the type hint `"ANULATION"`: the cancellation path
runs the same eight rule groups and adds no rules of its own. -/
theorem c10_validate_anulation_delegates (input : DteInput) :
    validate_anulation input = validate_dte input (some "ANULATION") := rfl

end FelSpec

namespace FelSpec

/-! ## Claim C6 — rule 2.2.1.1 is destroyed by a `TypeError`

The 5-day check itself (kept in `rule2211Findings`) would emit the
INFORM_ERROR exactly as the claim states, but whenever both timestamps
parse the source continues to the 2.2.1.2 guard, which compares a `date`
with a `datetime` and raises `TypeError`; the accumulated findings are
lost and the verdict instead carries a `SYSTEM_GENERAL_PART_1` REJECT. -/

/-- C6 evaluation at the claim's own boundary scenario: the emission-date
validator raises instead of returning the 2.2.1.1 finding; the full
pipeline yields a `SYSTEM_GENERAL_PART_1` REJECT and no finding with code
2.2.1.1 anywhere, even though the 5-day rule as written (before the crash)
would produce exactly the claimed INFORM_ERROR on FACT and nothing on
CIVA. -/
theorem c6_rule2211_destroyed_by_type_error :
    validateEmissionDate lateEmissionDoc =
      Except.error "TypeError: cannot compare datetime.datetime to datetime.date" ∧
    daysBetween ⟨2024, 1, 1, 9, 0, 0⟩ ⟨2024, 1, 7, 9, 0, 0⟩ = 6 ∧
    (rule2211Findings (some "FACT") ⟨2024, 1, 1, 9, 0, 0⟩ ⟨2024, 1, 7, 9, 0, 0⟩).map
        (fun f => (f.rule_code, f.severity)) = [("2.2.1.1", Severity.INFORM_ERROR)] ∧
    rule2211Findings (some "CIVA") ⟨2024, 1, 1, 9, 0, 0⟩ ⟨2024, 1, 7, 9, 0, 0⟩ = [] ∧
    (validate_dte (.doc lateEmissionDoc) none).errors.map (fun f => f.rule_code) =
      ["SYSTEM_GENERAL_PART_1", "3.12.1.1", "3.12.4.1"] ∧
    (validate_dte (.doc lateEmissionDoc) none).warnings = [] ∧
    (∀ f ∈ (validate_dte (.doc lateEmissionDoc) none).errors, f.rule_code ≠ "2.2.1.1") := by
  refine ⟨rfl, by decide, by decide, by decide, ?_, ?_, ?_⟩ <;> decide

/-! ## Claim C3 — the CF grand-total limit (rule 2.2.4.11) -/

/-- The document of the claim: receptor `"CF"`, type FACT, currency GTQ,
grand total `g`. -/
def cfLimitDoc (g : Dec) : XmlDoc :=
  { idReceptor := some "CF", tipoDTE := some "FACT", moneda := some "GTQ",
    granTotal := some g }

/-- C3: on a CF/FACT/GTQ document, `_validate_id_receptor` emits the
REJECT finding 2.2.4.11 exactly for grand totals `≥ 2500.00`; in
particular 2500.00 is rejected and 2499.99 is not. -/
theorem c3_cf_limit_boundary :
    (∀ g : Dec,
      (∃ f ∈ validateIdReceptor (cfLimitDoc g),
          f.rule_code = "2.2.4.11" ∧ f.severity = Severity.REJECT) ↔
        decLe maxCfAmountGtq g = true) ∧
    (∃ f ∈ validateIdReceptor (cfLimitDoc ⟨250000, 2⟩),
        f.rule_code = "2.2.4.11" ∧ f.severity = Severity.REJECT) ∧
    (∀ f ∈ validateIdReceptor (cfLimitDoc ⟨249999, 2⟩), f.rule_code ≠ "2.2.4.11") := by
  refine ⟨?_, by decide, by decide⟩
  intro g
  by_cases hle : decLe maxCfAmountGtq g = true
  · simp [validateIdReceptor, cfLimitDoc, pyTruthy, pyIsDigit, optMem, cfLimitDteTypes, hle]
  · simp only [Bool.not_eq_true] at hle
    simp [validateIdReceptor, cfLimitDoc, pyTruthy, pyIsDigit, optMem, cfLimitDteTypes, hle]

end FelSpec

namespace FelSpec

/-! ## Claim C4 — the IVA recomputation (rule 2.7.4.1)

The source computes `expected_tax = monto_gravable * Decimal("0.12")`
without rounding; for `taxable_amount = 1000.00` the product is the
four-decimal `Decimal("120.0000")`, so the finding's `expected_value`
string is `"120.0000"`, not `"120.00"` as the claim states. -/

/-- The IVA entry of the claim with the given tax amount. -/
def ivaClaimEntry (taxAmount : Dec) : IvaTax :=
  { montoGravable := some ⟨100000, 2⟩, codigoUnidadGravable := some (some 1),
    montoImpuesto := some taxAmount }

/-- C4 counterexample: at the claim's own input (taxable 1000.00, unit
code 1, tax 121.00) the emitted 2.7.4.1 finding carries
`expected_value = "120.0000"`, and no finding carries the claimed
`"120.00"`. -/
theorem c4_counterexample_expected_string :
    (∃ f ∈ validate_iva_tax (some "FACT") [ivaClaimEntry ⟨12100, 2⟩],
        f.rule_code = "2.7.4.1" ∧ f.expected_value = some "120.0000" ∧
        f.actual_value = some "121.00") ∧
    (∀ f ∈ validate_iva_tax (some "FACT") [ivaClaimEntry ⟨12100, 2⟩],
        f.expected_value ≠ some "120.00") ∧
    ("120.0000" : String) ≠ "120.00" := by
  refine ⟨?_, ?_, ?_⟩ <;> decide

/-- C4 amended: with tax 120.00 no 2.7.4.1 finding is emitted; with tax
121.00 the output is exactly one REJECT 2.7.4.1 finding whose
`expected_value` is the string `"120.0000"` (the unrounded Decimal product
`taxable_amount * 0.12`) and whose `actual_value` is `"121.00"`; in
general, for unit code 1 the finding fires iff the tax amount differs from
the raw product `taxable_amount × 0.12` by more than 0.01, and for unit
code 2 iff it differs from 0 by more than 0.01. -/
theorem c4_iva_recomputation_amended :
    (∀ f ∈ validate_iva_tax (some "FACT") [ivaClaimEntry ⟨12000, 2⟩],
        f.rule_code ≠ "2.7.4.1") ∧
    validate_iva_tax (some "FACT") [ivaClaimEntry ⟨12100, 2⟩] =
      [{ rule_code := "2.7.4.1", message := "IVA amount calculated incorrectly",
         severity := .REJECT, category := .TAX_SPECIFIC,
         expected_value := some "120.0000", actual_value := some "121.00" }] ∧
    (∀ g t : Dec,
      (∃ f ∈ validate_iva_tax (some "FACT")
          [{ montoGravable := some g, codigoUnidadGravable := some (some 1),
             montoImpuesto := some t }],
          f.rule_code = "2.7.4.1") ↔
        decOutsideTolerance t (decMul g ⟨12, 2⟩) = true) ∧
    (∀ g t : Dec,
      (∃ f ∈ validate_iva_tax (some "FACT")
          [{ montoGravable := some g, codigoUnidadGravable := some (some 2),
             montoImpuesto := some t }],
          f.rule_code = "2.7.4.1") ↔
        decOutsideTolerance t ⟨0, 0⟩ = true) := by
  refine ⟨by decide, by decide, ?_, ?_⟩ <;> intro g t
  · by_cases h : decOutsideTolerance t (decMul g ⟨12, 2⟩) = true
    · simp [validate_iva_tax, ivaEntryFindings, h]
    · simp only [Bool.not_eq_true] at h
      simp [validate_iva_tax, ivaEntryFindings, h]
  · by_cases h : decOutsideTolerance t ⟨0, 0⟩ = true
    · simp [validate_iva_tax, ivaEntryFindings, h]
    · simp only [Bool.not_eq_true] at h
      simp [validate_iva_tax, ivaEntryFindings, h]

/-! ## Claim C9 — no stale-cache fallback in `load_schema` -/

/-- C9 counterexample: with a cached file on disk whose record is stale
and a failing re-download, `load_schema` returns `None` (it never falls
back to the stale copy), and the validation call gains a fatal
`SCHEMA_LOAD_ERROR` finding among the errors — not a warning. -/
theorem c9_counterexample_stale_cache_fatal :
    (SchemaCacheState.mk false true false false true).cacheFileExists = true ∧
    (SchemaCacheState.mk false true false false true).cacheInfoFresh = false ∧
    (SchemaCacheState.mk false true false false true).downloadSucceeds = false ∧
    load_schema (SchemaCacheState.mk false true false false true) false = none ∧
    (schemaStepFindings (SchemaCacheState.mk false true false false true)
        (some "GT_DOCUMENTO") none).1 =
      [⟨"SCHEMA_LOAD_ERROR", "Could not load schema: GT_DOCUMENTO", XLevel.ERROR⟩] ∧
    (schemaStepFindings (SchemaCacheState.mk false true false false true)
        (some "GT_DOCUMENTO") none).2 = [] := by
  refine ⟨rfl, rfl, rfl, by decide, by decide, by decide⟩

/-- C9 amended: `load_schema` fails exactly when the schema is not
memoized in memory and either the download fails while the cache is
missing or stale, or the schema file fails to parse; whenever it fails,
the schema step of `validate_xml` emits the fatal `SCHEMA_LOAD_ERROR`
finding among the errors (and never a warning) — a stale cached copy on
disk is not used as a fallback. -/
theorem c9_load_schema_failure_amended (st : SchemaCacheState)
    (violation : Option String) (name : String) :
    (load_schema st false = none ↔
      st.memoized = false ∧
        (((st.cacheFileExists = false ∨ st.cacheInfoFresh = false) ∧
            st.downloadSucceeds = false) ∨
          st.parseSucceeds = false)) ∧
    ((∃ f ∈ (schemaStepFindings st (some name) violation).1, f.code = "SCHEMA_LOAD_ERROR") ↔
      load_schema st false = none) ∧
    (schemaStepFindings st (some name) violation).2 = [] := by
  obtain ⟨m, ce, cf, dl, ps⟩ := st
  refine ⟨by cases m <;> cases ce <;> cases cf <;> cases dl <;> cases ps <;> decide, ?_, ?_⟩
  · match hload : load_schema ⟨m, ce, cf, dl, ps⟩ false with
    | some sch =>
      simp only [schemaStepFindings, hload]
      constructor
      · rintro ⟨f, hf, hcode⟩
        cases violation with
        | none => simp at hf
        | some msg =>
          simp at hf
          subst hf
          simp at hcode
      · intro h
        cases h
    | none =>
      simp only [schemaStepFindings, hload]
      exact ⟨fun _ => trivial, fun _ => ⟨_, List.mem_singleton_self _, rfl⟩⟩
  · match hload : load_schema ⟨m, ce, cf, dl, ps⟩ false with
    | some sch => simp only [schemaStepFindings, hload]
    | none => simp only [schemaStepFindings, hload]

end FelSpec

namespace FelSpec

/-! ## Claim C5 — serie/numero derivation from the authorization UUID

For `550e8400-e29b-41d4-a716-446655440000` the hex run `e29b41d4` has
value 3801825748, and `3801825748 % 999999999 = 801825751` — not the
809938325 asserted by the claim. -/

/-- The UUID of the claim. -/
def claimUuid : String := "550e8400-e29b-41d4-a716-446655440000"

/-- C5 counterexample: the derived numero for the claim's UUID is
801825751, so a document carrying the claim's pair
(serie `"550E8400"`, numero 809938325) does receive a 3.12.7.1 finding,
contradicting the claimed round trip at that value. -/
theorem c5_counterexample_numero_value :
    numeroFromUuid claimUuid = 801825751 ∧
    (801825751 : Nat) ≠ 809938325 ∧
    (∃ f ∈ validate_uuid_format
        { numeroAutorizacion := some claimUuid, serie := some "550E8400",
          numero := some (some 809938325) },
        f.rule_code = "3.12.7.1" ∧ f.severity = Severity.REJECT ∧
        f.expected_value = some "801825751" ∧ f.actual_value = some "809938325") := by
  refine ⟨by decide, by decide, by decide⟩

/-- C5 amended: serie is the uppercase of the first 8 hex characters and
numero is the value of hex characters 8..15 modulo 999999999.  For every
valid UUID, a document whose serie and numero equal the derived pair
yields no 3.12.6.1 or 3.12.7.1 finding; for the claim's UUID the expected
serie is `"550E8400"` and the expected numero is
`int("e29b41d4", 16) mod 999999999 = 801825751`; a document with that
UUID and a mismatching serie receives a 3.12.6.1 REJECT finding carrying
expected `"550E8400"` and the actual serie. -/
theorem c5_uuid_derivation_amended (d d2 : XmlDoc) (ua : String)
    (hua : d.numeroAutorizacion = some ua) (hmatch : uuidMatch ua = true)
    (hserie : d.serie = some (serieFromUuid ua))
    (hnum : d.numero = some (some ((numeroFromUuid ua : Int))))
    (h2ua : d2.numeroAutorizacion = some claimUuid)
    (h2serie : d2.serie ≠ some "550E8400") :
    (∀ f ∈ validate_uuid_format d,
        f.rule_code ≠ "3.12.6.1" ∧ f.rule_code ≠ "3.12.7.1") ∧
    serieFromUuid claimUuid = "550E8400" ∧
    numeroFromUuid claimUuid = 801825751 ∧
    (∃ f ∈ validate_uuid_format d2,
        f.rule_code = "3.12.6.1" ∧ f.severity = Severity.REJECT ∧
        f.expected_value = some "550E8400" ∧ f.actual_value = d2.serie) := by
  have hne : ua ≠ "" := by
    intro h
    rw [h] at hmatch
    exact absurd hmatch (by decide)
  refine ⟨?_, by decide, by decide, ?_⟩
  · have hstep : validate_uuid_format d = [] := by
      simp only [validate_uuid_format, hua, hserie, hnum]
      rw [if_neg hne, if_neg (not_not_intro hmatch)]
      simp
    simp [hstep]
  · have h1 : claimUuid ≠ "" := by decide
    have h2 : uuidMatch claimUuid = true := by decide
    simp only [validate_uuid_format, h2ua]
    rw [if_neg h1, if_neg (not_not_intro h2)]
    have hser2 : serieFromUuid claimUuid = "550E8400" := by decide
    rw [hser2, if_pos h2serie]
    exact ⟨_, List.mem_append_left _ (List.mem_singleton_self _), rfl, rfl, rfl, rfl⟩

/-- Witness for C5 at the claim's UUID with the correctly derived pair
(and a second document with a deliberately wrong serie). -/
theorem c5_uuid_derivation_amended_witness :
    (∀ f ∈ validate_uuid_format
        { numeroAutorizacion := some claimUuid, serie := some "550E8400",
          numero := some (some 801825751) },
        f.rule_code ≠ "3.12.6.1" ∧ f.rule_code ≠ "3.12.7.1") ∧
    serieFromUuid claimUuid = "550E8400" ∧
    numeroFromUuid claimUuid = 801825751 ∧
    (∃ f ∈ validate_uuid_format
        { numeroAutorizacion := some claimUuid, serie := some "AAAA1111",
          numero := some (some 801825751) },
        f.rule_code = "3.12.6.1" ∧ f.severity = Severity.REJECT ∧
        f.expected_value = some "550E8400" ∧
        f.actual_value =
          (XmlDoc.serie { numeroAutorizacion := some claimUuid, serie := some "AAAA1111",
                          numero := some (some 801825751) })) :=
  c5_uuid_derivation_amended
    { numeroAutorizacion := some claimUuid, serie := some "550E8400",
      numero := some (some 801825751) }
    { numeroAutorizacion := some claimUuid, serie := some "AAAA1111",
      numero := some (some 801825751) }
    claimUuid rfl (by decide) (by decide) (by decide) rfl (by decide)

end FelSpec

namespace FelSpec

/-! ## Claim C7 — the NIT check digit

`validate_nit` itself never accepts the sentinel `"CF"`: the pattern
`^\d{1,12}[0-9K]$` rejects it, and the function returns `False`.  The
sentinel is special-cased by callers (`_validate_id_receptor` skips the
NIT check when the receptor is `"CF"`, and the module self-test in
`fel_config.py` bypasses `validate_nit` for `"CF"`). -/

theorem isDigitChar_digitChar {n : Nat} (h : n ≤ 9) : isDigitChar (digitChar n) = true := by
  interval_cases n <;> decide

/-- C7 counterexample: `validate_nit("CF")` is `False`, contradicting the
claim that the sentinel string passes. -/
theorem c7_counterexample_cf : validate_nit "CF" = false := by decide

/-- C7 amended: a string of 1..12 digits followed by the computed terminal
(`'0'` for remainder 0, `'K'` for remainder 1, else the digit `11 - r`) is
accepted; changing the terminal to any other character is rejected; the
sentinel `"CF"` is rejected by `validate_nit` itself and is handled by its
callers instead. -/
theorem c7_nit_check_digit_amended (pre : List Char) (c : Char)
    (hlen1 : 1 ≤ pre.length) (hlen2 : pre.length ≤ 12)
    (hdigits : ∀ ch ∈ pre, isDigitChar ch = true)
    (hc : c ≠ expectedNitChar pre) :
    validate_nit (String.mk (pre ++ [expectedNitChar pre])) = true ∧
    validate_nit (String.mk (pre ++ [c])) = false ∧
    validate_nit "CF" = false := by
  have hdrop : ∀ x : Char, (pre ++ [x]).dropLast = pre := by
    intro x; simp
  have hlast : ∀ x : Char, (pre ++ [x]).getLast? = some x := by
    intro x; simp
  have hpat : ∀ x : Char, (isDigitChar x || decide (x = 'K')) = true →
      nitPattern (pre ++ [x]) = true := by
    intro x hx
    simp only [nitPattern, hdrop x, hlast x, List.length_append, List.length_singleton,
      Bool.and_eq_true, decide_eq_true_eq]
    refine ⟨⟨⟨by omega, by omega⟩, ?_⟩, hx⟩
    exact List.all_eq_true.mpr hdigits
  have hv : ∀ x : Char, (isDigitChar x || decide (x = 'K')) = true →
      validate_nit (String.mk (pre ++ [x])) = decide (x = expectedNitChar pre) := by
    intro x hx
    show (if ¬ nitPattern (pre ++ [x]) then false
          else if (pre ++ [x]).length < 2 then false
          else match (pre ++ [x]).getLast? with
               | some check => decide (check = expectedNitChar (pre ++ [x]).dropLast)
               | none => false) = _
    rw [hpat x hx]
    have hnotlt : ¬ ((pre ++ [x]).length < 2) := by
      simp only [List.length_append, List.length_singleton]
      omega
    rw [if_neg (by simp), if_neg hnotlt, hlast x, hdrop x]
  have hvB : ∀ x : Char, (isDigitChar x || decide (x = 'K')) = false →
      validate_nit (String.mk (pre ++ [x])) = false := by
    intro x hx
    have hbad : nitPattern (pre ++ [x]) = false := by
      simp only [nitPattern, hlast x, hx, Bool.and_false]
    show (if ¬ nitPattern (pre ++ [x]) then false
          else if (pre ++ [x]).length < 2 then false
          else match (pre ++ [x]).getLast? with
               | some check => decide (check = expectedNitChar (pre ++ [x]).dropLast)
               | none => false) = false
    rw [hbad]
    simp
  have hexp : (isDigitChar (expectedNitChar pre) || decide (expectedNitChar pre = 'K')) = true := by
    unfold expectedNitChar
    by_cases h0 : nitWeighted pre % 11 = 0
    · rw [if_pos h0]
      decide
    · rw [if_neg h0]
      by_cases h1 : nitWeighted pre % 11 = 1
      · rw [if_pos h1]
        decide
      · rw [if_neg h1]
        have hle : 11 - nitWeighted pre % 11 ≤ 9 := by
          have : nitWeighted pre % 11 < 11 := Nat.mod_lt _ (by norm_num)
          omega
        simp [isDigitChar_digitChar hle]
  refine ⟨?_, ?_, by decide⟩
  · rw [hv _ hexp]
    simp
  · cases hx : (isDigitChar c || decide (c = 'K')) with
    | true => rw [hv c hx]; simp [hc]
    | false => exact hvB c hx

/-- Witness for C7: the prefix `1234567` has weighted sum 112, remainder
2, expected terminal `'9'`; changing it to `'0'` is rejected. -/
theorem c7_nit_check_digit_amended_witness :
    validate_nit (String.mk (['1', '2', '3', '4', '5', '6', '7'] ++
        [expectedNitChar ['1', '2', '3', '4', '5', '6', '7']])) = true ∧
    validate_nit (String.mk (['1', '2', '3', '4', '5', '6', '7'] ++ ['0'])) = false ∧
    validate_nit "CF" = false :=
  c7_nit_check_digit_amended ['1', '2', '3', '4', '5', '6', '7'] '0'
    (by decide) (by decide) (by decide) (by decide)

end FelSpec

namespace FelSpec

/-! ## Claim C8 — the CUI check digit under single-digit flips

Flipping one of the first eight digits changes the check value
`c = (s·10) mod 11` by a nonzero amount, but `expected = (0 if c = 10
else c)` collapses both `c = 0` and `c = 10` to the check digit 0 — so a
flip that moves `c` between 0 and 10 preserves validity. -/

theorem data_mk (l : List Char) : (String.mk l).data = l := rfl

theorem getD_set_ne (l : List Char) (i j : Nat) (c d : Char) (h : i ≠ j) :
    (l.set i c).getD j d = l.getD j d := by
  rw [List.getD_eq_getElem?_getD, List.getD_eq_getElem?_getD, List.getElem?_set_ne h]

theorem getD_set_self (l : List Char) (i : Nat) (c d : Char) (h : i < l.length) :
    (l.set i c).getD i d = c := by
  rw [List.getD_eq_getElem?_getD, List.getElem?_set_self]
  · rfl
  · exact h

theorem getD_mem_of_lt (l : List Char) (d : Char) (n : Nat) (h : n < l.length) :
    l.getD n d ∈ l := by
  rw [List.getD_eq_getElem?_getD, List.getElem?_eq_getElem h]
  exact List.getElem_mem h

theorem char_toNat_injective {a b : Char} (h : a.toNat = b.toNat) : a = b := by
  have h1 : Char.ofNat a.toNat = Char.ofNat b.toNat := by rw [h]
  rwa [Char.ofNat_toNat, Char.ofNat_toNat] at h1

/-- Embeds `validate_cui` accepts exactly the 13-digit strings whose 9th digit is
the computed check digit. -/
theorem validate_cui_spec (s : String) :
    validate_cui s = true ↔
      cuiPattern s.data = true ∧ charDigit (s.data.getD 8 ' ') = cuiExpected s.data := by
  unfold validate_cui
  by_cases hp : cuiPattern s.data = true
  · have hlen : s.data.length = 13 := by
      have h := hp
      simp only [cuiPattern, Bool.and_eq_true, decide_eq_true_eq] at h
      exact h.1
    rw [if_neg (not_not_intro hp), if_pos hlen]
    simp [hp]
  · rw [if_pos hp]
    simp [hp]

/-- Effect of a flip at position `j < 8` on the weighted sum, in `ZMod 11`. -/
theorem cuiWeighted_set_zmod (l : List Char) (j : Fin 8) (c : Char) (hlen : l.length = 13) :
    ((cuiWeighted (l.set j.val c) : ℕ) : ZMod 11) =
      (cuiWeighted l : ZMod 11) +
        ((charDigit c : ZMod 11) - (charDigit (l.getD j.val ' ') : ZMod 11)) *
          ((j.val : ZMod 11) + 2) := by
  have hj8 := j.isLt
  have hsplit : ∀ i ∈ Finset.range 8,
      (charDigit ((l.set j.val c).getD i ' ') : ZMod 11) * ((i : ZMod 11) + 2) =
        (charDigit (l.getD i ' ') : ZMod 11) * ((i : ZMod 11) + 2) +
          (if i = j.val then
            ((charDigit c : ZMod 11) - (charDigit (l.getD j.val ' ') : ZMod 11)) *
              ((j.val : ZMod 11) + 2) else 0) := by
    intro i hi
    by_cases hij : i = j.val
    · rw [hij]
      rw [getD_set_self l j.val c ' ' (by omega)]
      rw [if_pos rfl]
      ring
    · rw [getD_set_ne l j.val i c ' ' (fun hh => hij hh.symm)]
      rw [if_neg hij]
      ring
  have hsum := Finset.sum_congr rfl hsplit
  rw [Finset.sum_add_distrib, Finset.sum_ite_eq' (Finset.range 8) j.val] at hsum
  rw [if_pos (Finset.mem_range.mpr hj8)] at hsum
  unfold cuiWeighted
  push_cast
  exact hsum


theorem cuiCalc_set_ne (l : List Char) (j : Fin 8) (c : Char) (hlen : l.length = 13)
    (hcdig : isDigitChar c = true) (holddig : isDigitChar (l.getD j.val ' ') = true)
    (hne : c ≠ l.getD j.val ' ') :
    cuiCalc (l.set j.val c) ≠ cuiCalc l := by
  intro heq
  unfold cuiCalc at heq
  have h10 : (10 : ZMod 11) ≠ 0 := by decide
  have hall : ∀ jj : Fin 8, ((jj.val : ZMod 11) + 2) ≠ 0 := by decide
  have hz : ((cuiWeighted (l.set j.val c) * 10 : ℕ) : ZMod 11) =
      ((cuiWeighted l * 10 : ℕ) : ZMod 11) :=
    (ZMod.natCast_eq_natCast_iff _ _ _).mpr heq
  push_cast at hz
  haveI : Fact (Nat.Prime 11) := ⟨by norm_num⟩
  have hw : ((cuiWeighted (l.set j.val c) : ℕ) : ZMod 11) = (cuiWeighted l : ZMod 11) :=
    mul_right_cancel₀ h10 hz
  rw [cuiWeighted_set_zmod l j c hlen] at hw
  have hmul : ((charDigit c : ZMod 11) - (charDigit (l.getD j.val ' ') : ZMod 11)) *
      ((j.val : ZMod 11) + 2) = 0 := add_right_eq_self.mp hw
  rcases mul_eq_zero.mp hmul with hd | hj2
  · have hcast : (charDigit c : ZMod 11) = (charDigit (l.getD j.val ' ') : ZMod 11) :=
      sub_eq_zero.mp hd
    have hmodeq := (ZMod.natCast_eq_natCast_iff _ _ _).mp hcast
    simp only [isDigitChar, Bool.and_eq_true, decide_eq_true_eq] at hcdig holddig
    have heq2 : charDigit c = charDigit (l.getD j.val ' ') := by
      have h := hmodeq
      rw [Nat.ModEq] at h
      rw [Nat.mod_eq_of_lt (by unfold charDigit; omega),
          Nat.mod_eq_of_lt (by unfold charDigit; omega)] at h
      exact h
    apply hne
    apply char_toNat_injective
    unfold charDigit at heq2
    omega
  · exact hall j hj2


/-- C8 amended: `validate_cui` accepts every 13-digit string whose 9th
digit equals the computed check digit; and for a valid CUI, flipping a
single digit among positions 1..8 keeps the CUI valid exactly when the
check value `c = (s·10) mod 11` moves between 0 and 10 (both of which
have expected check digit 0) — every other flip is rejected. -/
theorem c8_cui_flip_amended (s t : String) (j : Fin 8) (c : Char)
    (hv : validate_cui s = true) (hcdig : isDigitChar c = true)
    (hne : c ≠ s.data.getD j.val ' ')
    (hp : cuiPattern t.data = true)
    (hchk : charDigit (t.data.getD 8 ' ') = cuiExpected t.data) :
    (validate_cui (String.mk (s.data.set j.val c)) = true ↔
      (cuiCalc s.data = 0 ∧ cuiCalc (s.data.set j.val c) = 10) ∨
      (cuiCalc s.data = 10 ∧ cuiCalc (s.data.set j.val c) = 0)) ∧
    validate_cui t = true := by
  have hj8 := j.isLt
  refine ⟨?_, (validate_cui_spec t).mpr ⟨hp, hchk⟩⟩
  obtain ⟨hpat, hcheck⟩ := (validate_cui_spec s).mp hv
  have hlen : s.data.length = 13 := by
    have h := hpat
    simp only [cuiPattern, Bool.and_eq_true, decide_eq_true_eq] at h
    exact h.1
  have hall : ∀ ch ∈ s.data, isDigitChar ch = true := by
    have h := hpat
    simp only [cuiPattern, Bool.and_eq_true, decide_eq_true_eq, List.all_eq_true] at h
    exact h.2
  have holddig : isDigitChar (s.data.getD j.val ' ') = true :=
    hall _ (getD_mem_of_lt _ ' ' j.val (by omega))
  have hpat' : cuiPattern (s.data.set j.val c) = true := by
    simp only [cuiPattern, List.length_set, Bool.and_eq_true, decide_eq_true_eq,
      List.all_eq_true]
    refine ⟨hlen, ?_⟩
    intro ch hch
    rcases List.mem_or_eq_of_mem_set hch with h | h
    · exact hall ch h
    · subst h
      exact hcdig
  have hd8 : (s.data.set j.val c).getD 8 ' ' = s.data.getD 8 ' ' :=
    getD_set_ne _ _ _ _ _ (by omega)
  have hcne := cuiCalc_set_ne s.data j c hlen hcdig holddig hne
  rw [validate_cui_spec]
  simp only [data_mk, hd8]
  constructor
  · rintro ⟨_, hchk'⟩
    have hexp : cuiExpected (s.data.set j.val c) = cuiExpected s.data := by
      rw [← hchk', hcheck]
    unfold cuiExpected at hexp
    split_ifs at hexp <;> omega
  · rintro (⟨h0, h10⟩ | ⟨h10, h0⟩)
    · refine ⟨hpat', ?_⟩
      rw [hcheck]
      unfold cuiExpected
      rw [h0, h10]
      decide
    · refine ⟨hpat', ?_⟩
      rw [hcheck]
      unfold cuiExpected
      rw [h0, h10]
      decide

/-- C8 counterexample: `1111111100101` is a valid CUI (check value 0), and
flipping its second digit to `5` (check value 10) leaves `validate_cui`
accepting, contradicting the claim that every single-digit flip in
positions 1..8 is rejected. -/
theorem c8_counterexample_flip_preserves :
    validate_cui "1111111100101" = true ∧
    ("1511111100101" : String).data = ("1111111100101" : String).data.set 1 '5' ∧
    isDigitChar '5' = true ∧
    ('5' : Char) ≠ ("1111111100101" : String).data.getD 1 ' ' ∧
    validate_cui "1511111100101" = true := by
  refine ⟨by decide, by decide, by decide, by decide, by decide⟩

/-- Witness for C8 at the concrete flip `1111111100101 → 1511111100101`
(position 2, so index 1) and the concrete valid CUI reused for the
acceptance half. -/
theorem c8_cui_flip_amended_witness :
    (validate_cui (String.mk (("1111111100101" : String).data.set
        (⟨1, by decide⟩ : Fin 8).val '5')) = true ↔
      (cuiCalc ("1111111100101" : String).data = 0 ∧
        cuiCalc (("1111111100101" : String).data.set (⟨1, by decide⟩ : Fin 8).val '5') = 10) ∨
      (cuiCalc ("1111111100101" : String).data = 10 ∧
        cuiCalc (("1111111100101" : String).data.set (⟨1, by decide⟩ : Fin 8).val '5') = 0)) ∧
    validate_cui "1111111100101" = true :=
  c8_cui_flip_amended "1111111100101" "1111111100101" ⟨1, by decide⟩ '5'
    (by decide) (by decide) (by decide) (by decide) (by decide)

end FelSpec
